import Mathlib

/-!
Verification of the `versus` repository: a family of near-duplicate serverless
HTTP handlers that proxy a crypto price API, reshape the response and compute
unrealized PnL for simulated or upstream-decoded positions.

The repository contains seven handler variants:
  1. `snapshotMockHandler`  (src/api/hyperliquid.js, first document):
     exchangeSnapshot price query plus hardcoded mock positions whose PnL is
     recomputed when a live price is present.
  2. `batchHandler`         (src/api/hyperliquid.js, second document):
     Coinbase price fetch plus a clearinghouseState JSON-RPC batch over a
     fixed 10-wallet list.
  3. `snapshotSimHandler`   (src/unnamed/part_000, first document):
     exchangeSnapshot price query plus simulated positions; 502 on upstream
     failure with a details string assembled from the cloned error body.
  4. `pureSimHandler`       (src/unnamed/part_000, second document):
     purely simulated data, no upstream call.
  5. `leaderboardBatchHandler` (src/unnamed/part_001):
     like `batchHandler`, with the wallet list optionally replaced by a
     leaderboard query result.
  6. `metaHandler`          (src/unnamed/part_002, first document):
     metaAndAssetCtxs query; every failure path degrades to a 200 response
     carrying a fixed fallback mock body.
  7. `allMidsHandler`       (src/unnamed/part_002, second document):
     all_mids query; hardcoded positions whose PnL is recomputed from the
     fetched mid-price map; any failure becomes a 500.

Numbers are modelled as rationals (ℚ); JavaScript NaN, produced only by
`parseFloat` on a non-numeric string, is modelled as `none` in `Option ℚ`.
Upstream HTTP interactions are passed to each handler as explicit data:
`Except` captures a network-level failure (rejected fetch / JSON parse throw)
versus a delivered HTTP response.
-/

namespace Versus

/-! ## JavaScript primitives -/

/-- Digits of a decimal string accumulated into a natural number. -/
def digitsToNat (ds : List ℕ) : ℕ := ds.foldl (fun a d => a * 10 + d) 0

/-- Splits a character list into its leading decimal digits and the rest. -/
def takeDigits : List Char → List ℕ × List Char
  | [] => ([], [])
  | c :: rest =>
    if c.isDigit then
      let p := takeDigits rest
      ((c.toNat - 48) :: p.1, p.2)
    else ([], c :: rest)

/-- Syntactic part of a parsed decimal literal: sign, integer digits (as a
value), fraction digits (value and count) and the exponent. -/
structure NumParts where
  neg : Bool
  intVal : ℕ
  fracVal : ℕ
  fracLen : ℕ
  expVal : ℤ
deriving DecidableEq

/-- Syntactic stage of JavaScript `parseFloat`: skips leading spaces, reads
an optional sign, integer digits, an optional fraction and an optional
exponent, and ignores any trailing garbage.  `none` models the NaN result
produced when no digits are found.  (The special literal `Infinity` is
outside this model.) -/
def jsParseRaw (s : String) : Option NumParts :=
  let cs := s.data.dropWhile (fun c => c = ' ' ∨ c = '\t' ∨ c = '\n')
  let signAndRest : Bool × List Char :=
    match cs with
    | '-' :: r => (true, r)
    | '+' :: r => (false, r)
    | _ => (false, cs)
  let p1 := takeDigits signAndRest.2
  let intPart := p1.1
  let p2 : List ℕ × List Char :=
    match p1.2 with
    | '.' :: r => takeDigits r
    | _ => ([], p1.2)
  let fracPart := p2.1
  if intPart = [] ∧ fracPart = [] then none
  else
    let expPart : ℤ :=
      match p2.2 with
      | 'e' :: r | 'E' :: r =>
        let esignAndRest : ℤ × List Char :=
          match r with
          | '-' :: r2 => (-1, r2)
          | '+' :: r2 => (1, r2)
          | _ => (1, r)
        let eds := (takeDigits esignAndRest.2).1
        if eds = [] then 0 else esignAndRest.1 * digitsToNat eds
      | _ => 0
    some ⟨signAndRest.1, digitsToNat intPart, digitsToNat fracPart, fracPart.length, expPart⟩

/-- Numeric value of the syntactic parts. -/
def NumParts.val (p : NumParts) : ℚ :=
  (if p.neg then -1 else 1) *
    ((p.intVal : ℚ) + (p.fracVal : ℚ) / ((10 : ℚ) ^ p.fracLen)) *
    (10 : ℚ) ^ p.expVal

/-- Model of JavaScript `parseFloat` over the rationals; `none` is NaN. -/
def jsParseFloat (s : String) : Option ℚ :=
  (jsParseRaw s).map NumParts.val

/-- Model of `parseFloat(x.toFixed(2))`: rounding to two decimal places.
The tie behaviour of JavaScript's float-string rounding is irrelevant to
every statement below; `round` (nearest, ties upward) stands in for it. -/
def round2 (q : ℚ) : ℚ := (round (q * 100) : ℤ) / 100

/-- Model of `m[c] || d` over a symbol→price map whose values come from
`parseFloat`: an absent key and a NaN value (`none`) are falsy, as is a
stored numeric 0. -/
def priceOr (m : String → Option ℚ) (c : String) (d : ℚ) : ℚ :=
  match m c with
  | some q => if q = 0 then d else q
  | none => d

/-- Model of `a || b` over strings where `a` may be absent: `none` and the
empty string are falsy. -/
def jsOrS (a : Option String) (b : String) : String :=
  match a with
  | some s => if s = "" then b else s
  | none => b

/-- Model of `response.ok`: HTTP status in the 2xx range. -/
def statusOk (status : ℕ) : Bool := 200 ≤ status && status < 300

/-- Subtraction on JavaScript numbers with NaN (`none`) propagation. -/
def jnSub : Option ℚ → Option ℚ → Option ℚ
  | some a, some b => some (a - b)
  | _, _ => none

/-- Multiplication on JavaScript numbers with NaN (`none`) propagation. -/
def jnMul : Option ℚ → Option ℚ → Option ℚ
  | some a, some b => some (a * b)
  | _, _ => none

/-- Model of `x < b` on a JavaScript number that may be NaN: every comparison
with NaN is false. -/
def jnLt : Option ℚ → ℚ → Bool
  | some a, b => decide (a < b)
  | none, _ => false

/-! ## Response data model -/

/-- Market record of the canonical response schema.  `Timestamp` carries
`Date.now()` where the variant sets one. -/
structure Market where
  MarketID : String
  Title : String
  OddsYes : ℚ
  OddsNo : ℚ
  CurrentPrice : ℚ
  Timestamp : Option ℤ := none
deriving DecidableEq

/-- Position record used by the simulated/mock variants, all of whose numeric
fields are genuine numbers. -/
structure Position where
  Wallet : Option String := none
  Asset : String
  Side : String
  SizeUSD : ℚ
  EntryPrice : ℚ
  CurrentPrice : ℚ
  LiquidationPrice : ℚ
  Margin : Option ℚ := none
  UnrealizedPnL : ℚ
deriving DecidableEq

instance : Inhabited Position :=
  ⟨{ Asset := "", Side := "", SizeUSD := 0, EntryPrice := 0, CurrentPrice := 0,
     LiquidationPrice := 0, UnrealizedPnL := 0 }⟩

/-- Position record produced by the clearinghouseState batch variants.  Fields
computed from `parseFloat` of upstream strings may be NaN, hence `Option ℚ`. -/
structure BatchPosition where
  Wallet : Option String
  Asset : String
  Side : String
  SizeUSD : Option ℚ
  EntryPrice : Option ℚ
  CurrentPrice : ℚ
  LiquidationPrice : Option ℚ
  UnrealizedPnL : Option ℚ
deriving DecidableEq

/-- Body of an HTTP response emitted by a handler: a JSON data payload with
`markets` and `openPositions` arrays (and an optional `warning`), a JSON
error object, or the empty body of the OPTIONS short-circuit. -/
inductive Body (π : Type) where
  | payload (markets : List Market) (openPositions : List π) (warning : Option String)
  | errBody (error : String) (status : Option ℕ) (details : Option String)
  | empty
deriving DecidableEq

/-- Status, body and the number of outbound upstream calls performed on the
taken path. -/
structure Outcome (π : Type) where
  status : ℕ
  body : Body π
  upstreamCalls : ℕ
deriving DecidableEq

/-- Full HTTP response: outcome plus response headers. -/
structure Resp (π : Type) where
  status : ℕ
  headers : List (String × String)
  body : Body π
  upstreamCalls : ℕ
deriving DecidableEq

/-- Attaches the headers a variant sets unconditionally at its entry to the
outcome of its main logic. -/
def withCors {π : Type} (hs : List (String × String)) (o : Outcome π) : Resp π :=
  ⟨o.status, hs, o.body, o.upstreamCalls⟩

/-- CORS headers of the variants that allow `GET, OPTIONS`. -/
def corsGetOnly : List (String × String) :=
  [("Access-Control-Allow-Origin", "*"),
   ("Access-Control-Allow-Methods", "GET, OPTIONS"),
   ("Access-Control-Allow-Headers", "Content-Type")]

/-- CORS headers of the batch variants (`POST, GET, OPTIONS`). -/
def corsPostGet : List (String × String) :=
  [("Access-Control-Allow-Origin", "*"),
   ("Access-Control-Allow-Methods", "POST, GET, OPTIONS"),
   ("Access-Control-Allow-Headers", "Content-Type")]

/-- CORS headers of the all_mids variant (`GET, POST, OPTIONS`). -/
def corsGetPost : List (String × String) :=
  [("Access-Control-Allow-Origin", "*"),
   ("Access-Control-Allow-Methods", "GET, POST, OPTIONS"),
   ("Access-Control-Allow-Headers", "Content-Type")]

/-- Positions list of a data payload body (empty for non-payload bodies). -/
def bodyPositions {π : Type} : Body π → List π
  | .payload _ ps _ => ps
  | _ => []

/-- Whether a body is a JSON data payload carrying the `markets` and
`openPositions` arrays. -/
def bodyIsDataPayload {π : Type} : Body π → Bool
  | .payload _ _ _ => true
  | _ => false

/-- Warning field of a data payload body. -/
def bodyWarning {π : Type} : Body π → Option String
  | .payload _ _ w => w
  | _ => none

/-- Details field of an error body. -/
def bodyDetails {π : Type} : Body π → Option String
  | .errBody _ _ d => d
  | _ => none

/-! ## exchangeSnapshot upstream shape (variants 1 and 3) -/

/-- One record of `data.result` in the exchangeSnapshot response: symbol and
its price as the upstream string. -/
structure PriceItem where
  coin : String
  price : String
deriving DecidableEq

/-- Parsed JSON body of a successful exchangeSnapshot response; `result` is
absent when the payload lacks the field. -/
structure SnapshotData where
  result : Option (List PriceItem)
deriving DecidableEq

/-- Model of the `assetPrices` object built by
`data.result.forEach(item => assetPrices[item.coin] = parseFloat(item.price))`:
later assignments overwrite earlier ones; a NaN parse is `none`. -/
def assetPrices (items : List PriceItem) : String → Option ℚ :=
  items.foldl (fun m it => fun c => if c = it.coin then jsParseFloat it.price else m c)
    (fun _ => none)

/-- Upstream interaction of `snapshotMockHandler`: delivered HTTP status, the
raw text read on the error path, and the JSON parse of the body on the
success path (`Except.error` there models a `response.json()` throw). -/
structure Upstream1 where
  status : ℕ
  errText : String
  body : Except String SnapshotData

/-- Hardcoded mock positions of `snapshotMockHandler`
(`getMockOpenPositions` in src/api/hyperliquid.js). -/
def getMockOpenPositions : List Position :=
  [{ Asset := "ETH", Side := "Long", SizeUSD := 1250.00, EntryPrice := 3850.50,
     CurrentPrice := 3950.00, LiquidationPrice := 3600.00,
     UnrealizedPnL := (3950.00 - 3850.50) * 0.32 },
   { Asset := "SOL", Side := "Short", SizeUSD := 500.00, EntryPrice := 155.00,
     CurrentPrice := 160.00, LiquidationPrice := 170.00,
     UnrealizedPnL := (155.00 - 160.00) * 3.12 }]

/-- Per-position update of `snapshotMockHandler`: when a truthy live price is
available, the current price is replaced and the PnL recomputed as
`pnlFactor * (SizeUSD / EntryPrice)`; otherwise the mock record is kept. -/
def updateMockPosition (prices : String → Option ℚ) (pos : Position) : Position :=
  match prices pos.Asset with
  | some livePrice =>
    if livePrice = 0 then pos
    else
      let pnlFactor :=
        if pos.Side = "Long" then livePrice - pos.EntryPrice
        else pos.EntryPrice - livePrice
      { pos with CurrentPrice := livePrice,
                 UnrealizedPnL := pnlFactor * (pos.SizeUSD / pos.EntryPrice) }
  | none => pos

/-- Main logic of the first document of src/api/hyperliquid.js
(exchangeSnapshot query, mock positions, 502 on upstream failure). -/
def snapshotMockCore (method : String) (u : Except String Upstream1) : Outcome Position :=
  if method = "OPTIONS" then ⟨200, .empty, 0⟩
  else
    match u with
    | .error msg =>
      ⟨500, .errBody "Internal Server Error during execution" none (some msg), 1⟩
    | .ok up =>
      if !statusOk up.status then
        ⟨502, .errBody "Failed to fetch data from Hyperliquid API" (some up.status)
          (some (up.errText.take 100)), 1⟩
      else
        match up.body with
        | .error msg =>
          ⟨500, .errBody "Internal Server Error during execution" none (some msg), 1⟩
        | .ok data =>
          let prices := assetPrices (data.result.getD [])
          let ethPrice := priceOr prices "ETH" 4000.00
          let mainMarket : Market :=
            { MarketID := "ETH-PREDICT-24Q4", Title := "ETH Price > $4500 by Dec 31st",
              CurrentPrice := ethPrice, OddsYes := 0.65, OddsNo := 0.35 }
          ⟨200, .payload [mainMarket]
            (getMockOpenPositions.map (updateMockPosition prices)) none, 1⟩

/-- Handler of the first document of src/api/hyperliquid.js. -/
def snapshotMockHandler (method : String) (u : Except String Upstream1) : Resp Position :=
  withCors corsGetOnly (snapshotMockCore method u)

/-! ## exchangeSnapshot variant with simulated positions (src/unnamed/part_000) -/

/-- Fields of the error object read from a cloned non-OK response body. -/
structure ErrObj where
  raw_response : Option String
  message : Option String
deriving DecidableEq

/-- Upstream interaction of `snapshotSimHandler`: HTTP status, the clone's
JSON parse on the error path (`none` = parse failure), the clone's raw text,
and the success-path body parse. -/
structure Upstream2 where
  status : ℕ
  errJson : Option ErrObj
  errText : String
  body : Except String SnapshotData

/-- Simulated open positions shared verbatim by both documents of
src/unnamed/part_000: a BTC Long and an ETH Short whose PnL is recomputed
from the (rounded) current prices. -/
def simulatedOpenPositions (fBtc fEth : ℚ) : List Position :=
  [{ Asset := "BTC", Side := "Long", SizeUSD := 5000, EntryPrice := 58500.25,
     CurrentPrice := fBtc, LiquidationPrice := 55000.00,
     UnrealizedPnL := (fBtc - 58500.25) * (5000 / 58500.25) },
   { Asset := "ETH", Side := "Short", SizeUSD := 2500, EntryPrice := 3800.00,
     CurrentPrice := fEth, LiquidationPrice := 4100.00,
     UnrealizedPnL := (3800.00 - fEth) * (2500 / 3800.00) }]

/-- Main logic of the first document of src/unnamed/part_000. -/
def snapshotSimCore (method : String) (u : Except String Upstream2) (now : ℤ) :
    Outcome Position :=
  if method = "OPTIONS" then ⟨200, .empty, 0⟩
  else
    match u with
    | .error msg =>
      ⟨500, .errBody "Internal Server Error during execution." none (some msg), 1⟩
    | .ok up =>
      if !statusOk up.status then
        let errorDetails : ErrObj :=
          match up.errJson with
          | some obj => obj
          | none =>
            { raw_response := some up.errText,
              message := some "Non-JSON response body received from Hyperliquid or JSON parsing failed." }
        let details := jsOrS errorDetails.raw_response
          (jsOrS errorDetails.message
            ("Upstream API returned status " ++ toString up.status ++ " with unparsable content."))
        ⟨502, .errBody "Failed to fetch data from Hyperliquid API" (some up.status)
          (some details), 1⟩
      else
        match up.body with
        | .error msg =>
          ⟨500, .errBody "Internal Server Error during execution." none (some msg), 1⟩
        | .ok data =>
          let prices := assetPrices (data.result.getD [])
          let btcPrice := priceOr prices "BTC" 60000
          let ethPrice := priceOr prices "ETH" 3500
          let fBtc := round2 btcPrice
          let fEth := round2 ethPrice
          let markets : List Market :=
            [{ MarketID := "BTC-PERP-Q1", Title := "BTC Perpetual Futures (Live Price)",
               OddsYes := 0.55, OddsNo := 0.45, CurrentPrice := fBtc,
               Timestamp := some now }]
          ⟨200, .payload markets (simulatedOpenPositions fBtc fEth) none, 1⟩

/-- Handler of the first document of src/unnamed/part_000. -/
def snapshotSimHandler (method : String) (u : Except String Upstream2) (now : ℤ) :
    Resp Position :=
  withCors corsGetOnly (snapshotSimCore method u now)

/-- Main logic of the second document of src/unnamed/part_000 (pure
simulation: the time-driven sine/cosine prices are abstracted as inputs). -/
def pureSimCore (method : String) (btcPrice ethPrice : ℚ) (now : ℤ) : Outcome Position :=
  if method = "OPTIONS" then ⟨200, .empty, 0⟩
  else
    let fBtc := round2 btcPrice
    let fEth := round2 ethPrice
    let markets : List Market :=
      [{ MarketID := "BTC-PRED-2025", Title := "BTC Perpetual Futures (Prediction Pool)",
         OddsYes := 0.55, OddsNo := 0.45, CurrentPrice := fBtc, Timestamp := some now }]
    ⟨200, .payload markets (simulatedOpenPositions fBtc fEth) none, 0⟩

/-- Handler of the second document of src/unnamed/part_000. -/
def pureSimHandler (method : String) (btcPrice ethPrice : ℚ) (now : ℤ) : Resp Position :=
  withCors corsGetOnly (pureSimCore method btcPrice ethPrice now)

/-! ## clearinghouseState batch variants (src/api/hyperliquid.js second
document, and src/unnamed/part_001) -/

/-- Inner data object of an upstream asset position: the JSON-RPC batch
response carries `asset` (1 = BTC, otherwise treated as ETH), the side string
`s`, and the numeric fields as strings. -/
structure HLPosData where
  asset : ℤ
  s : String
  entryPx : String
  liquidationPx : String
  szi : String
deriving DecidableEq

/-- Upstream asset position wrapper (`pos.data` in the source). -/
structure HLPos where
  data : HLPosData
deriving DecidableEq

/-- Clearinghouse state of one wallet; `assetPositions` is absent when the
field is missing from the sub-response. -/
structure CHState where
  assetPositions : Option (List HLPos)
deriving DecidableEq

/-- One entry of the batch response array; `result` is absent when the
sub-response carries no result. -/
structure BatchResult where
  result : Option CHState
deriving DecidableEq

/-- Model of `mapHyperliquidPosition` (identical in both batch variants):
parses the numeric strings, skips the position when its signed size is below
0.001 (NaN compares false, so a NaN size is NOT skipped, exactly as in the
source), and otherwise builds the outgoing record with the PnL rounded to two
decimals. -/
def mapHyperliquidPosition (pos : HLPos) (currentBtcPrice currentEthPrice : ℚ)
    (walletAddress : Option String) : Option BatchPosition :=
  let asset := pos.data.asset
  let isLong := pos.data.s = "long"
  let entryPrice := jsParseFloat pos.data.entryPx
  let liquidationPrice := jsParseFloat pos.data.liquidationPx
  let size := jsParseFloat pos.data.szi
  let currentPrice := if asset = 1 then currentBtcPrice else currentEthPrice
  if jnLt size 0.001 then none
  else
    let unrealizedPnL :=
      if isLong then jnMul (jnSub (some currentPrice) entryPrice) size
      else jnMul (jnSub entryPrice (some currentPrice)) size
    some
      { Wallet := walletAddress,
        Asset := if asset = 1 then "BTC" else "ETH",
        Side := if isLong then "Long" else "Short",
        SizeUSD := jnMul size entryPrice,
        EntryPrice := entryPrice,
        CurrentPrice := currentPrice,
        LiquidationPrice := liquidationPrice,
        UnrealizedPnL := unrealizedPnL.map round2 }

/-- Recursive model of the `data.forEach((result, index) => ...)` batch loop:
each sub-result is matched to the wallet at its index, positions with the
literal size string "0" are pre-filtered, the rest are mapped through
`mapHyperliquidPosition` and the survivors pushed in order. -/
def processBatchAux (wallets : List String) (btcPrice ethPrice : ℚ) :
    ℕ → List BatchResult → List BatchPosition
  | _, [] => []
  | index, result :: rest =>
    let walletAddress := wallets.get? index
    let contrib :=
      match result.result with
      | some st =>
        match st.assetPositions with
        | some aps =>
          (aps.filter (fun p => p.data.szi != "0")).filterMap
            (fun pos => mapHyperliquidPosition pos btcPrice ethPrice walletAddress)
        | none => []
      | none => []
    contrib ++ processBatchAux wallets btcPrice ethPrice (index + 1) rest

/-- Aggregated open positions of a batch response. -/
def processBatchData (wallets : List String) (data : List BatchResult)
    (btcPrice ethPrice : ℚ) : List BatchPosition :=
  processBatchAux wallets btcPrice ethPrice 0 data

/-- Exchange-rate fields of the Coinbase response; a value is the parsed
numeric rate and `none` models an absent (falsy) field. -/
structure RatesObj where
  BTC : Option ℚ
  ETH : Option ℚ
deriving DecidableEq

/-- Delivered Coinbase response: `ok` status flag and the optional
`data.rates` object. -/
structure CoinbaseData where
  ok : Bool
  rates : Option RatesObj
deriving DecidableEq

/-- Resolution of the BTC and ETH prices from the Coinbase call: on any
failure the module-level fallback prices 60000 / 3500 are used; a present
rate r yields the price 1 / r. -/
def resolvePrices (coinbase : Except Unit CoinbaseData) : ℚ × ℚ :=
  match coinbase with
  | .error _ => (60000, 3500)
  | .ok d =>
    if d.ok then
      match d.rates with
      | some r =>
        ((match r.BTC with | some x => 1 / x | none => 60000),
         (match r.ETH with | some x => 1 / x | none => 3500))
      | none => (60000, 3500)
    else (60000, 3500)

/-- Delivered Hyperliquid batch response: HTTP status and the parsed body,
where `none` models a non-JSON or non-array body. -/
structure HLBatchResp where
  status : ℕ
  data : Option (List BatchResult)
deriving DecidableEq

/-- Fixed fallback wallet list shared by both batch variants. -/
def TRACKED_WALLET_ADDRESSES : List String :=
  ["0x000000000000000000000000000000000000d0c1",
   "0x000000000000000000000000000000000000d0c2",
   "0x000000000000000000000000000000000000d0c3",
   "0x000000000000000000000000000000000000d0c4",
   "0x000000000000000000000000000000000000d0c5",
   "0x000000000000000000000000000000000000d0c6",
   "0x000000000000000000000000000000000000d0c7",
   "0x000000000000000000000000000000000000d0c8",
   "0x000000000000000000000000000000000000d0c9",
   "0x000000000000000000000000000000000000d0c0"]

/-- Warning string returned when the Hyperliquid batch fetch fails. -/
def batchWarning : String :=
  "Hyperliquid position data fetch failed. Displaying live prices only."

/-- Markets list of the batch variants (the locale formatting of the price
inside the title is abstracted as `toString`). -/
def batchMarkets (fBtc : ℚ) (now : ℤ) : List Market :=
  [{ MarketID := "BTC-PERP-Q1",
     Title := "BTC Perpetual Futures (Live Price: $" ++ toString fBtc ++ ")",
     OddsYes := 0.55, OddsNo := 0.45, CurrentPrice := fBtc, Timestamp := some now }]

/-- Shared main logic of the two batch variants, parametrised by the wallet
list and the number of upstream calls the variant performs on its data path.
The Hyperliquid fetch is considered failed on a network error, a non-2xx
status or a non-array body; in that case a 200 with a warning and an empty
positions list is returned. -/
def batchCore (wallets : List String) (coinbase : Except Unit CoinbaseData)
    (hl : Except Unit HLBatchResp) (now : ℤ) (calls : ℕ) (method : String) :
    Outcome BatchPosition :=
  if method = "OPTIONS" then ⟨200, .empty, 0⟩
  else
    let prices := resolvePrices coinbase
    let btcPrice := prices.1
    let ethPrice := prices.2
    let fetchedData : Option (List BatchResult) :=
      match hl with
      | .error _ => none
      | .ok resp => if !statusOk resp.status then none else resp.data
    let fBtc := round2 btcPrice
    match fetchedData with
    | none => ⟨200, .payload (batchMarkets fBtc now) [] (some batchWarning), calls⟩
    | some data =>
      ⟨200, .payload (batchMarkets fBtc now)
        (processBatchData wallets data btcPrice ethPrice) none, calls⟩

/-- Handler of the second document of src/api/hyperliquid.js (fixed wallet
list; two upstream calls on the data path). -/
def batchHandler (method : String) (coinbase : Except Unit CoinbaseData)
    (hl : Except Unit HLBatchResp) (now : ℤ) : Resp BatchPosition :=
  withCors corsPostGet (batchCore TRACKED_WALLET_ADDRESSES coinbase hl now 2 method)

/-! ## Leaderboard-driven batch variant (src/unnamed/part_001) -/

/-- One leaderboard entry: the wallet identifier. -/
structure LBEntry where
  user : String
deriving DecidableEq

/-- Result object of the leaderboard response; `leaderboard` is absent when
the field is missing or not an array. -/
structure LBResult where
  leaderboard : Option (List LBEntry)
deriving DecidableEq

/-- Parsed leaderboard body; `result` is absent when missing. -/
structure LBData where
  result : Option LBResult
deriving DecidableEq

/-- Delivered leaderboard response: HTTP status and parsed body (`none` =
body was not valid JSON). -/
structure LBResp where
  status : ℕ
  data : Option LBData
deriving DecidableEq

/-- Wallet list used by the leaderboard variant: the first 50 fetched wallet
addresses when the leaderboard call succeeds with a nonempty list, otherwise
the fixed fallback list. -/
def resolveWallets (lb : Except Unit LBResp) : List String :=
  match lb with
  | .error _ => TRACKED_WALLET_ADDRESSES
  | .ok resp =>
    if statusOk resp.status then
      match resp.data with
      | some d =>
        match d.result with
        | some r =>
          match r.leaderboard with
          | some entries =>
            let fetchedWallets := (entries.map (·.user)).take 50
            if fetchedWallets = [] then TRACKED_WALLET_ADDRESSES else fetchedWallets
          | none => TRACKED_WALLET_ADDRESSES
        | none => TRACKED_WALLET_ADDRESSES
      | none => TRACKED_WALLET_ADDRESSES
    else TRACKED_WALLET_ADDRESSES

/-- Handler of src/unnamed/part_001 (leaderboard-driven wallet list; three
upstream calls on the data path). -/
def leaderboardBatchHandler (method : String) (coinbase : Except Unit CoinbaseData)
    (lb : Except Unit LBResp) (hl : Except Unit HLBatchResp) (now : ℤ) :
    Resp BatchPosition :=
  withCors corsPostGet (batchCore (resolveWallets lb) coinbase hl now 3 method)

/-! ## metaAndAssetCtxs variant (src/unnamed/part_002, first document) -/

/-- One universe entry of the metaAndAssetCtxs response.  `markPx` carries
the parsed mark price; `none` models an absent or empty (falsy) field. -/
structure UniverseEntry where
  name : String
  markPx : Option ℚ
deriving DecidableEq

/-- One element of the `result` array of the metaAndAssetCtxs response. -/
structure MetaItem where
  «universe» : Option (List UniverseEntry)
deriving DecidableEq

/-- Parsed metaAndAssetCtxs body; `result` is absent when missing or not an
array. -/
structure MetaResp where
  result : Option (List MetaItem)
deriving DecidableEq

/-- Upstream interaction of `metaHandler`: delivered status and the JSON
parse of the body (`Except.error` models a `json()` throw). -/
structure Upstream6 where
  status : ℕ
  body : Except String MetaResp

/-- Stable fallback body returned by the metaAndAssetCtxs variant on every
failure path (`FALLBACK_MOCK_RESPONSE` in the source). -/
def FALLBACK_MOCK_RESPONSE : Body Position :=
  .payload
    [{ MarketID := "FALLBACK-MOCK-1", Title := "Price Feed Offline - Using Fallback Data",
       CurrentPrice := 55000, OddsYes := 0.50, OddsNo := 0.50 }]
    [{ Asset := "BTC", Side := "Long", SizeUSD := 100.00, EntryPrice := 50000.00,
       CurrentPrice := 55000.00, LiquidationPrice := 48000.00, UnrealizedPnL := 50.00 }]
    none

/-- Model of `hyperliquidResponse.result[0]?.universe?.find(u => u.name === nm)`. -/
def findUniverse (resp : MetaResp) (nm : String) : Option UniverseEntry :=
  match resp.result with
  | some (item :: _) =>
    match item.«universe» with
    | some us => us.find? (fun ue => ue.name == nm)
    | none => none
  | _ => none

/-- Open positions constructed by the metaAndAssetCtxs variant: both records
apply a x10 multiplier to the relative price move (the source comment calls
it a simple PnL calculation). -/
def processedOpenPositions (currentBTCPrice currentETHPrice : ℚ) : List Position :=
  [{ Asset := "BTC", Side := "Long", SizeUSD := 500.00,
     EntryPrice := currentBTCPrice * 0.99, CurrentPrice := currentBTCPrice,
     LiquidationPrice := currentBTCPrice * 0.95,
     UnrealizedPnL := 500.00 * (currentBTCPrice / (currentBTCPrice * 0.99) - 1) * 10 },
   { Asset := "ETH", Side := "Short", SizeUSD := 200.00,
     EntryPrice := currentETHPrice * 1.01, CurrentPrice := currentETHPrice,
     LiquidationPrice := currentETHPrice * 1.05,
     UnrealizedPnL := -200.00 * (currentETHPrice / (currentETHPrice * 1.01) - 1) * 10 }]

/-- Main logic of the first document of src/unnamed/part_002: every failure
(network, non-OK status, JSON throw, missing result array) degrades to a 200
response with the fallback mock body; the catch block also answers 200. -/
def metaCore (method : String) (u : Except String Upstream6) : Outcome Position :=
  if method = "OPTIONS" then ⟨200, .empty, 0⟩
  else
    match u with
    | .error _ => ⟨200, FALLBACK_MOCK_RESPONSE, 1⟩
    | .ok up =>
      if !statusOk up.status then ⟨200, FALLBACK_MOCK_RESPONSE, 1⟩
      else
        match up.body with
        | .error _ => ⟨200, FALLBACK_MOCK_RESPONSE, 1⟩
        | .ok resp =>
          match resp.result with
          | none => ⟨200, FALLBACK_MOCK_RESPONSE, 1⟩
          | some _ =>
            let currentBTCPrice :=
              match findUniverse resp "BTC" with
              | some ue => (match ue.markPx with | some p => p | none => 60000)
              | none => 60000
            let currentETHPrice :=
              match findUniverse resp "ETH" with
              | some ue => (match ue.markPx with | some p => p | none => 3000)
              | none => 3000
            ⟨200, .payload
              [{ MarketID := "BTC-NEXT-WEEK", Title := "BTC to reach $65k by next Friday",
                 CurrentPrice := currentBTCPrice, OddsYes := 0.45, OddsNo := 0.55 }]
              (processedOpenPositions currentBTCPrice currentETHPrice) none, 1⟩

/-- Handler of the first document of src/unnamed/part_002. -/
def metaHandler (method : String) (u : Except String Upstream6) : Resp Position :=
  withCors corsGetOnly (metaCore method u)

/-! ## all_mids variant (src/unnamed/part_002, second document) -/

/-- One element of the all_mids response: coin name and the mid price as the
upstream string. -/
structure MidItem where
  coin : String
  mid : String
deriving DecidableEq

/-- Upstream interaction of `allMidsHandler`: delivered status and the JSON
parse of the body (`Except.error` also covers the `forEach` throw on a
non-array body). -/
structure Upstream7 where
  status : ℕ
  body : Except String (List MidItem)

/-- Hardcoded positions of the all_mids variant (`MOCK_POSITIONS` in the
source); current price and PnL are attached later by the map. -/
structure MockPosition where
  Asset : String
  Side : String
  SizeUSD : ℚ
  EntryPrice : ℚ
  Margin : ℚ
  LiquidationPrice : ℚ
deriving DecidableEq

/-- Source constant `MOCK_POSITIONS`. -/
def MOCK_POSITIONS : List MockPosition :=
  [{ Asset := "BTC", Side := "Long", SizeUSD := 10000.00, EntryPrice := 62500.00,
     Margin := 500.00, LiquidationPrice := 59800.00 },
   { Asset := "ETH", Side := "Short", SizeUSD := 5000.00, EntryPrice := 3800.00,
     Margin := 250.00, LiquidationPrice := 4050.00 },
   { Asset := "SOL", Side := "Long", SizeUSD := 2500.00, EntryPrice := 155.20,
     Margin := 125.00, LiquidationPrice := 140.50 }]

/-- Source function `calculatePnL`: quantity is `SizeUSD / EntryPrice`, PnL
is quantity times the price change, negated for shorts. -/
def calculatePnL (pos : MockPosition) (currentPrice : ℚ) : ℚ :=
  let priceChange := currentPrice - pos.EntryPrice
  let quantity := pos.SizeUSD / pos.EntryPrice
  let pnl := quantity * priceChange
  if pos.Side = "Short" then -pnl else pnl

/-- Source constant `ASSET_MAP`, mapping dashboard symbols to Hyperliquid
coin names. -/
def ASSET_MAP : String → Option String := fun a =>
  if a = "BTC" then some "ETH"
  else if a = "ETH" then some "ARB"
  else if a = "SOL" then some "SOL"
  else none

/-- Price lookup map built from the all_mids response
(`priceMap[mid.coin] = parseFloat(mid.mid)`, later entries overwriting). -/
def priceMapOf (mids : List MidItem) : String → Option ℚ :=
  mids.foldl (fun m it => fun c => if c = it.coin then jsParseFloat it.mid else m c)
    (fun _ => none)

/-- Per-position map of the all_mids variant: the current price is
`priceMap[ASSET_MAP[Asset]] || 0` (0 when the coin is missing or its parsed
mid is NaN), and the PnL is recomputed with `calculatePnL`. -/
def livePosition (priceMap : String → Option ℚ) (pos : MockPosition) : Position :=
  let currentPrice : ℚ :=
    match ASSET_MAP pos.Asset with
    | some c => (priceMap c).getD 0
    | none => 0
  { Wallet := none, Asset := pos.Asset, Side := pos.Side, SizeUSD := pos.SizeUSD,
    EntryPrice := pos.EntryPrice, CurrentPrice := currentPrice,
    LiquidationPrice := pos.LiquidationPrice, Margin := some pos.Margin,
    UnrealizedPnL := calculatePnL pos currentPrice }

/-- Open positions returned by the all_mids variant. -/
def livePositions (priceMap : String → Option ℚ) : List Position :=
  MOCK_POSITIONS.map (livePosition priceMap)

/-- Main logic of the second document of src/unnamed/part_002: a non-OK
upstream status throws, and every caught error yields a bare 500 whose body
has only an `error` message (no `details`). -/
def allMidsCore (method : String) (u : Except String Upstream7) : Outcome Position :=
  if method = "OPTIONS" then ⟨200, .empty, 0⟩
  else
    match u with
    | .error _ =>
      ⟨500, .errBody "Failed to fetch data from Hyperliquid via proxy." none none, 1⟩
    | .ok up =>
      if !statusOk up.status then
        ⟨500, .errBody "Failed to fetch data from Hyperliquid via proxy." none none, 1⟩
      else
        match up.body with
        | .error _ =>
          ⟨500, .errBody "Failed to fetch data from Hyperliquid via proxy." none none, 1⟩
        | .ok mids =>
          let priceMap := priceMapOf mids
          let marketPrice := priceOr priceMap "ETH" 65000.00
          ⟨200, .payload
            [{ MarketID := "BTC-Q324-PEAK", Title := "BTC to reach $100,000 before Q4 2024",
               OddsYes := 0.35, OddsNo := 0.65, CurrentPrice := marketPrice }]
            (livePositions priceMap) none, 1⟩

/-- Handler of the second document of src/unnamed/part_002. -/
def allMidsHandler (method : String) (u : Except String Upstream7) : Resp Position :=
  withCors corsGetPost (allMidsCore method u)

/-! ## Specification predicates -/

/-- PnL identity stated by the specification for positions whose quantity is
`SizeUSD / EntryPrice`: for a Long the PnL is
`(CurrentPrice - EntryPrice) * Quantity`, for any other side
`(EntryPrice - CurrentPrice) * Quantity`. -/
def pnlSpecQ (p : Position) : Prop :=
  p.UnrealizedPnL =
    (if p.Side = "Long" then p.CurrentPrice - p.EntryPrice
     else p.EntryPrice - p.CurrentPrice) * (p.SizeUSD / p.EntryPrice)

/-! ## Helper lemmas -/

/-- The string fallback chain is nonempty whenever its final default is. -/
lemma jsOrS_ne_empty (a : Option String) (b : String) (hb : b ≠ "") : jsOrS a b ≠ "" := by
  unfold jsOrS
  match a with
  | none => exact hb
  | some s =>
    by_cases hs : s = "" <;> simp [hs, hb]

/-- A position whose parsed size is below the 0.001 threshold is dropped by
`mapHyperliquidPosition`. -/
lemma mapHyperliquidPosition_none_of_lt (pos : HLPos) (btc eth : ℚ) (w : Option String)
    (q : ℚ) (hq : jsParseFloat pos.data.szi = some q) (hlt : q < 0.001) :
    mapHyperliquidPosition pos btc eth w = none := by
  simp [mapHyperliquidPosition, hq, jnLt, hlt]

/-- A surviving batch position carries exactly the wallet address it was
mapped with. -/
lemma mapHyperliquidPosition_wallet (pos : HLPos) (btc eth : ℚ) (w : Option String)
    (p : BatchPosition) (h : mapHyperliquidPosition pos btc eth w = some p) :
    p.Wallet = w := by
  unfold mapHyperliquidPosition at h
  by_cases hlt : jnLt (jsParseFloat pos.data.szi) 0.001
  · simp [hlt] at h
  · simp [hlt] at h
    subst h
    rfl

/-! ## Claim C1 -/

/-- C1, counterexample.  The claim asserts that in every handler variant a
returned Long position satisfies
`UnrealizedPnL = (CurrentPrice - EntryPrice) * Quantity` with
`Quantity = SizeUSD / EntryPrice` when no upstream size is present.  In the
metaAndAssetCtxs variant, with a delivered 200 response whose result array is
empty (so the default prices 60000 / 3000 apply), the first returned position
is a Long whose PnL violates the identity: the source multiplies the price
move by an extra factor of 10. -/
theorem c1_pnl_counterexample :
    ((bodyPositions (metaHandler "GET"
        (.ok { status := 200, body := .ok { result := some [] } })).body).headI.Side = "Long")
    ∧ ¬ pnlSpecQ ((bodyPositions (metaHandler "GET"
        (.ok { status := 200, body := .ok { result := some [] } })).body).headI) := by
  constructor
  · simp [metaHandler, metaCore, withCors, statusOk, bodyPositions, findUniverse,
          processedOpenPositions]
  · simp [metaHandler, metaCore, withCors, statusOk, bodyPositions, findUniverse,
          processedOpenPositions, pnlSpecQ]
    norm_num

/-- C1, amended.  The PnL identity with `Quantity = SizeUSD / EntryPrice`
holds exactly (1) for every position of the simulated exchangeSnapshot and
pure-simulation variants, (2) for every position of the all_mids variant, and
(3) for every mock position of the snapshotMock variant that receives a
truthy live price; (4) in the batch variants the identity holds with the
explicit upstream size `szi` as the quantity, up to rounding of the PnL to
two decimal places.  It does not hold in the metaAndAssetCtxs variant (extra
x10 factor), nor for mock positions kept without a live price, nor exactly
(without rounding) in the batch variants. -/
theorem c1_pnl_amended :
    (∀ (fBtc fEth : ℚ), ∀ p ∈ simulatedOpenPositions fBtc fEth, pnlSpecQ p)
    ∧ (∀ (pm : String → Option ℚ), ∀ p ∈ livePositions pm, pnlSpecQ p)
    ∧ (∀ (prices : String → Option ℚ), ∀ pos ∈ getMockOpenPositions, ∀ lp : ℚ,
        prices pos.Asset = some lp → lp ≠ 0 → pnlSpecQ (updateMockPosition prices pos))
    ∧ (∀ (pos : HLPos) (btc eth : ℚ) (w : Option String) (e q : ℚ) (p : BatchPosition),
        jsParseFloat pos.data.entryPx = some e → jsParseFloat pos.data.szi = some q →
        mapHyperliquidPosition pos btc eth w = some p →
        p.EntryPrice = some e ∧
        p.UnrealizedPnL = some (round2
          ((if p.Side = "Long" then p.CurrentPrice - e else e - p.CurrentPrice) * q))) := by
  refine ⟨?_, ?_, ?_, ?_⟩
  · intro fBtc fEth p hp
    simp [simulatedOpenPositions] at hp
    rcases hp with rfl | rfl <;> simp [pnlSpecQ]
  · intro pm p hp
    simp [livePositions, MOCK_POSITIONS] at hp
    rcases hp with rfl | rfl | rfl <;>
      simp [livePosition, calculatePnL, pnlSpecQ, ASSET_MAP] <;> ring
  · intro prices pos hpos lp hlp hne
    simp [getMockOpenPositions] at hpos
    rcases hpos with rfl | rfl <;>
      simp_all [updateMockPosition, pnlSpecQ]
  · intro pos btc eth w e q p he hq hm
    by_cases hlt : q < 0.001
    · simp [mapHyperliquidPosition, he, hq, jnLt, hlt] at hm
    · by_cases hL : pos.data.s = "long" <;>
        · simp [mapHyperliquidPosition, he, hq, jnLt, hlt, hL, jnSub, jnMul] at hm
          subst hm
          simp

/-- C1, witness: the amended statement applied to the BTC Long of the
simulated-positions variant at the concrete prices 61000 / 3800. -/
theorem c1_pnl_amended_witness :
    pnlSpecQ { Asset := "BTC", Side := "Long", SizeUSD := 5000, EntryPrice := 58500.25,
               CurrentPrice := 61000, LiquidationPrice := 55000.00,
               UnrealizedPnL := ((61000 : ℚ) - 58500.25) * (5000 / 58500.25) } :=
  c1_pnl_amended.1 61000 3800 _ (List.mem_cons_self _ _)

/-! ## Claim C2 -/

/-- C2, counterexample.  The claim asserts that no handler variant answers a
raw 500 when the upstream price/data API returns HTTP 500.  The all_mids
variant does exactly that: the non-OK status makes it throw, and the catch
block answers 500. -/
theorem c2_upstream500_counterexample :
    (allMidsHandler "GET" (.ok { status := 500, body := .ok [] })).status = 500 ∧
    (allMidsHandler "GET" (.ok { status := 500, body := .ok [] })).status ≠ 502 := by
  constructor <;> simp [allMidsHandler, allMidsCore, withCors, statusOk]

/-- C2, amended.  On an upstream HTTP 500 (any non-OPTIONS request): the two
exchangeSnapshot variants answer 502 (the snapshotMock variant with the
truncated raw body as details, the snapshotSim variant with a nonempty
details string); both batch variants answer 200 with the warning populated
and an empty openPositions; the metaAndAssetCtxs variant answers 200 with
the fallback mock body (no warning, nonempty positions); and the all_mids
variant answers a raw 500.  (The pure-simulation variant performs no
upstream call and is out of scope.)  No variant propagates an exception. -/
theorem c2_upstream500_amended :
    (∀ (method : String) (errText : String) (b : Except String SnapshotData),
      method ≠ "OPTIONS" →
      (snapshotMockHandler method (.ok ⟨500, errText, b⟩)).status = 502 ∧
      bodyDetails (snapshotMockHandler method (.ok ⟨500, errText, b⟩)).body =
        some (errText.take 100))
    ∧ (∀ (method : String) (ej : Option ErrObj) (et : String)
        (b : Except String SnapshotData) (now : ℤ), method ≠ "OPTIONS" →
      (snapshotSimHandler method (.ok ⟨500, ej, et, b⟩) now).status = 502 ∧
      ∃ d, bodyDetails (snapshotSimHandler method (.ok ⟨500, ej, et, b⟩) now).body = some d ∧
        d ≠ "")
    ∧ (∀ (method : String) (cb : Except Unit CoinbaseData)
        (d : Option (List BatchResult)) (now : ℤ), method ≠ "OPTIONS" →
      (batchHandler method cb (.ok ⟨500, d⟩) now).status = 200 ∧
      bodyWarning (batchHandler method cb (.ok ⟨500, d⟩) now).body = some batchWarning ∧
      bodyPositions (batchHandler method cb (.ok ⟨500, d⟩) now).body = [])
    ∧ (∀ (method : String) (cb : Except Unit CoinbaseData) (lb : Except Unit LBResp)
        (d : Option (List BatchResult)) (now : ℤ), method ≠ "OPTIONS" →
      (leaderboardBatchHandler method cb lb (.ok ⟨500, d⟩) now).status = 200 ∧
      bodyWarning (leaderboardBatchHandler method cb lb (.ok ⟨500, d⟩) now).body =
        some batchWarning ∧
      bodyPositions (leaderboardBatchHandler method cb lb (.ok ⟨500, d⟩) now).body = [])
    ∧ (∀ (method : String) (b : Except String MetaResp), method ≠ "OPTIONS" →
      (metaHandler method (.ok ⟨500, b⟩)).status = 200 ∧
      (metaHandler method (.ok ⟨500, b⟩)).body = FALLBACK_MOCK_RESPONSE)
    ∧ (∀ (method : String) (b : Except String (List MidItem)), method ≠ "OPTIONS" →
      (allMidsHandler method (.ok ⟨500, b⟩)).status = 500) := by
  refine ⟨?_, ?_, ?_, ?_, ?_, ?_⟩
  · intro method et b hm
    simp [snapshotMockHandler, snapshotMockCore, withCors, statusOk, bodyDetails, hm]
  · intro method ej et b now hm
    refine ⟨?_, ?_⟩
    · simp [snapshotSimHandler, snapshotSimCore, withCors, statusOk, hm]
    · simp only [snapshotSimHandler, snapshotSimCore, withCors, statusOk, hm]
      exact ⟨_, rfl, jsOrS_ne_empty _ _ (jsOrS_ne_empty _ _ (by decide))⟩
  · intro method cb d now hm
    simp [batchHandler, batchCore, withCors, statusOk, bodyWarning, bodyPositions, hm]
  · intro method cb lb d now hm
    simp [leaderboardBatchHandler, batchCore, withCors, statusOk, bodyWarning,
          bodyPositions, hm]
  · intro method b hm
    simp [metaHandler, metaCore, withCors, statusOk, hm]
  · intro method b hm
    simp [allMidsHandler, allMidsCore, withCors, statusOk, hm]

/-- C2, witness: the snapshotMock conjunct applied to a concrete GET request
whose upstream answered 500 with the body text "oops". -/
theorem c2_upstream500_amended_witness :
    (snapshotMockHandler "GET" (.ok ⟨500, "oops", .ok ⟨none⟩⟩)).status = 502 ∧
    bodyDetails (snapshotMockHandler "GET" (.ok ⟨500, "oops", .ok ⟨none⟩⟩)).body =
      some ("oops".take 100) :=
  c2_upstream500_amended.1 "GET" "oops" (.ok ⟨none⟩) (by decide)

/-! ## Claim C3 -/

/-- C3, confirmed (for the batch pipeline, the code the claim cites): a
position whose parsed size has absolute value below 0.001 is dropped by
`mapHyperliquidPosition`, and a batch response all of whose positions have
such sizes yields an empty aggregated openPositions list. -/
theorem c3_epsilon_exclusion :
    (∀ (pos : HLPos) (btc eth : ℚ) (w : Option String) (q : ℚ),
      jsParseFloat pos.data.szi = some q → |q| < 0.001 →
      mapHyperliquidPosition pos btc eth w = none)
    ∧ (∀ (wallets : List String) (data : List BatchResult) (btc eth : ℚ),
      (∀ r ∈ data, ∀ st, r.result = some st → ∀ aps, st.assetPositions = some aps →
        ∀ pos ∈ aps, ∃ q, jsParseFloat pos.data.szi = some q ∧ |q| < 0.001) →
      processBatchData wallets data btc eth = []) := by
  constructor
  · intro pos btc eth w q hq habs
    exact mapHyperliquidPosition_none_of_lt pos btc eth w q hq (abs_lt.mp habs).2
  · intro wallets data btc eth hdata
    unfold processBatchData
    suffices h : ∀ (d : List BatchResult), (∀ r ∈ d, ∀ st, r.result = some st →
        ∀ aps, st.assetPositions = some aps →
        ∀ pos ∈ aps, ∃ q, jsParseFloat pos.data.szi = some q ∧ |q| < 0.001) →
        ∀ idx, processBatchAux wallets btc eth idx d = [] by
      exact h data hdata 0
    intro d
    induction d with
    | nil => intro _ _; rfl
    | cons r rest ih =>
      intro hd idx
      have hrest := fun r hr => hd r (List.mem_cons_of_mem _ hr)
      have hr := hd r (List.mem_cons_self r rest)
      unfold processBatchAux
      rw [ih hrest (idx + 1)]
      rcases hres : r.result with _ | st
      · simp
      · rcases haps : st.assetPositions with _ | aps
        · simp [haps]
        · simp only [haps, List.append_nil]
          rw [List.filterMap_eq_nil_iff]
          intro pos hpos
          have hmem := (List.mem_filter.mp hpos).1
          obtain ⟨q, hq, habs⟩ := hr st hres aps haps pos hmem
          exact mapHyperliquidPosition_none_of_lt pos btc eth _ q hq (abs_lt.mp habs).2

/-- C3, witness: a position with size string "0.0005" (parsed value 1/2000,
below the threshold) is excluded. -/
theorem c3_epsilon_exclusion_witness :
    mapHyperliquidPosition ⟨⟨1, "long", "60000", "55000", "0.0005"⟩⟩ 60000 3500
      (some "0xw") = none :=
  c3_epsilon_exclusion.1 ⟨⟨1, "long", "60000", "55000", "0.0005"⟩⟩ 60000 3500
    (some "0xw") (1/2000)
    (by
      have h : jsParseRaw "0.0005" = some ⟨false, 0, 5, 4, 0⟩ := by decide
      simp [jsParseFloat, h, NumParts.val]
      norm_num)
    (by
      rw [abs_of_nonneg (by norm_num)]
      norm_num)

/-! ## Claim C4 -/

/-- C4, confirmed: in a batch of three wallet sub-queries where the second
returns only a position with the size string "0", the aggregated
openPositions consists of the surviving positions of wallets 1 and 3 in
request order, each tagged with its own wallet address; wallet 2 contributes
nothing. -/
theorem c4_batch_three_wallets :
    ∀ (w1 w2 w3 : String) (aps1 aps3 : List HLPos) (p2 : HLPos) (btc eth : ℚ),
      p2.data.szi = "0" →
      processBatchData [w1, w2, w3]
        [⟨some ⟨some aps1⟩⟩, ⟨some ⟨some [p2]⟩⟩, ⟨some ⟨some aps3⟩⟩] btc eth =
        (aps1.filter (fun p => p.data.szi != "0")).filterMap
          (fun pos => mapHyperliquidPosition pos btc eth (some w1)) ++
        (aps3.filter (fun p => p.data.szi != "0")).filterMap
          (fun pos => mapHyperliquidPosition pos btc eth (some w3)) ∧
      (∀ p ∈ (aps1.filter (fun p => p.data.szi != "0")).filterMap
          (fun pos => mapHyperliquidPosition pos btc eth (some w1)), p.Wallet = some w1) ∧
      (∀ p ∈ (aps3.filter (fun p => p.data.szi != "0")).filterMap
          (fun pos => mapHyperliquidPosition pos btc eth (some w3)), p.Wallet = some w3) := by
  intro w1 w2 w3 aps1 aps3 p2 btc eth hz
  refine ⟨?_, ?_, ?_⟩
  · unfold processBatchData processBatchAux processBatchAux processBatchAux processBatchAux
    simp [hz]
  · intro p hp
    obtain ⟨pos, _, hmap⟩ := List.mem_filterMap.mp hp
    exact mapHyperliquidPosition_wallet pos btc eth (some w1) p hmap
  · intro p hp
    obtain ⟨pos, _, hmap⟩ := List.mem_filterMap.mp hp
    exact mapHyperliquidPosition_wallet pos btc eth (some w3) p hmap

/-- C4, witness: concrete three-wallet batch where wallet 2 holds only a
zero-size position. -/
theorem c4_batch_three_wallets_witness :
    processBatchData ["0xa", "0xb", "0xc"]
      [⟨some ⟨some [⟨⟨1, "long", "60000", "55000", "2"⟩⟩]⟩⟩,
       ⟨some ⟨some [⟨⟨1, "long", "60000", "55000", "0"⟩⟩]⟩⟩,
       ⟨some ⟨some [⟨⟨2, "short", "3500", "3800", "1.5"⟩⟩]⟩⟩] 61000 3400 =
      (([⟨⟨1, "long", "60000", "55000", "2"⟩⟩] :
          List HLPos).filter (fun p => p.data.szi != "0")).filterMap
        (fun pos => mapHyperliquidPosition pos 61000 3400 (some "0xa")) ++
      (([⟨⟨2, "short", "3500", "3800", "1.5"⟩⟩] :
          List HLPos).filter (fun p => p.data.szi != "0")).filterMap
        (fun pos => mapHyperliquidPosition pos 61000 3400 (some "0xc")) :=
  (c4_batch_three_wallets "0xa" "0xb" "0xc"
    [⟨⟨1, "long", "60000", "55000", "2"⟩⟩]
    [⟨⟨2, "short", "3500", "3800", "1.5"⟩⟩]
    ⟨⟨1, "long", "60000", "55000", "0"⟩⟩ 61000 3400 rfl).1

/-! ## Claim C5 -/

/-- C5, counterexample.  The claim asserts that with a mocked upstream BTC
price of 61000.00 the returned PnL of the hardcoded BTC Long reproduces
approximately 213.68 under 2-decimal rounding.  The actual value of
`(61000 - 58500.25) * (5000 / 58500.25)` rounds to 213.65, not 213.68. -/
theorem c5_pnl_value_counterexample :
    ((bodyPositions (snapshotSimHandler "GET"
      (.ok { status := 200, errJson := none, errText := "",
             body := .ok { result := some [{ coin := "BTC", price := "61000.00" }] } })
      0).body).head?.map (fun p => round2 p.UnrealizedPnL)) ≠ some (21368 / 100) := by
  have h : jsParseRaw "61000.00" = some ⟨false, 61000, 0, 2, 0⟩ := by decide
  simp [snapshotSimHandler, snapshotSimCore, withCors, statusOk, bodyPositions,
        assetPrices, jsParseFloat, h, NumParts.val, priceOr, simulatedOpenPositions]
  rw [round2, round_eq, round2, round_eq]
  norm_num

/-- C5, amended.  With the mocked upstream BTC price 61000.00 the handler
returns 200 and the first position's PnL is exactly
`(61000 - 58500.25) * (5000 / 58500.25)`, which rounds to 213.65 at two
decimals. -/
theorem c5_pnl_value_amended :
    (snapshotSimHandler "GET"
      (.ok { status := 200, errJson := none, errText := "",
             body := .ok { result := some [{ coin := "BTC", price := "61000.00" }] } })
      0).status = 200 ∧
    ((bodyPositions (snapshotSimHandler "GET"
      (.ok { status := 200, errJson := none, errText := "",
             body := .ok { result := some [{ coin := "BTC", price := "61000.00" }] } })
      0).body).head?.map (fun p => p.UnrealizedPnL)) =
      some ((61000 - 58500.25) * (5000 / 58500.25)) ∧
    ((bodyPositions (snapshotSimHandler "GET"
      (.ok { status := 200, errJson := none, errText := "",
             body := .ok { result := some [{ coin := "BTC", price := "61000.00" }] } })
      0).body).head?.map (fun p => round2 p.UnrealizedPnL)) = some (21365 / 100) := by
  have h : jsParseRaw "61000.00" = some ⟨false, 61000, 0, 2, 0⟩ := by decide
  refine ⟨?_, ?_, ?_⟩
  · simp [snapshotSimHandler, snapshotSimCore, withCors, statusOk]
  · simp [snapshotSimHandler, snapshotSimCore, withCors, statusOk, bodyPositions,
          assetPrices, jsParseFloat, h, NumParts.val, priceOr, simulatedOpenPositions]
    rw [round2, round_eq]
    norm_num
  · simp [snapshotSimHandler, snapshotSimCore, withCors, statusOk, bodyPositions,
          assetPrices, jsParseFloat, h, NumParts.val, priceOr, simulatedOpenPositions]
    rw [round2, round_eq, round2, round_eq]
    norm_num

/-! ## Claim C6 -/

/-- C6, confirmed: in every variant, every non-OPTIONS execution path that
answers HTTP 200 carries a JSON data payload with the `markets` and
`openPositions` arrays.  (The OPTIONS preflight, which answers 200 with an
empty body, is the short-circuit documented separately by C7, not a success
or degraded-success data path.) -/
theorem c6_payload_on_200 :
    (∀ (method : String) (u : Except String Upstream1), method ≠ "OPTIONS" →
      (snapshotMockHandler method u).status = 200 →
      bodyIsDataPayload (snapshotMockHandler method u).body = true)
    ∧ (∀ (method : String) (u : Except String Upstream2) (now : ℤ), method ≠ "OPTIONS" →
      (snapshotSimHandler method u now).status = 200 →
      bodyIsDataPayload (snapshotSimHandler method u now).body = true)
    ∧ (∀ (method : String) (btc eth : ℚ) (now : ℤ), method ≠ "OPTIONS" →
      (pureSimHandler method btc eth now).status = 200 →
      bodyIsDataPayload (pureSimHandler method btc eth now).body = true)
    ∧ (∀ (method : String) (cb : Except Unit CoinbaseData) (hl : Except Unit HLBatchResp)
        (now : ℤ), method ≠ "OPTIONS" →
      (batchHandler method cb hl now).status = 200 →
      bodyIsDataPayload (batchHandler method cb hl now).body = true)
    ∧ (∀ (method : String) (cb : Except Unit CoinbaseData) (lb : Except Unit LBResp)
        (hl : Except Unit HLBatchResp) (now : ℤ), method ≠ "OPTIONS" →
      (leaderboardBatchHandler method cb lb hl now).status = 200 →
      bodyIsDataPayload (leaderboardBatchHandler method cb lb hl now).body = true)
    ∧ (∀ (method : String) (u : Except String Upstream6), method ≠ "OPTIONS" →
      (metaHandler method u).status = 200 →
      bodyIsDataPayload (metaHandler method u).body = true)
    ∧ (∀ (method : String) (u : Except String Upstream7), method ≠ "OPTIONS" →
      (allMidsHandler method u).status = 200 →
      bodyIsDataPayload (allMidsHandler method u).body = true) := by
  refine ⟨?_, ?_, ?_, ?_, ?_, ?_, ?_⟩
  · intro method u hm
    rcases u with msg | ⟨st, et, b⟩
    · simp [snapshotMockHandler, snapshotMockCore, withCors, hm]
    · rcases b with msg | data <;>
        by_cases hok : statusOk st <;>
        simp [snapshotMockHandler, snapshotMockCore, withCors, hm, hok, bodyIsDataPayload]
  · intro method u now hm
    rcases u with msg | ⟨st, ej, et, b⟩
    · simp [snapshotSimHandler, snapshotSimCore, withCors, hm]
    · rcases b with msg | data <;>
        by_cases hok : statusOk st <;>
        simp [snapshotSimHandler, snapshotSimCore, withCors, hm, hok, bodyIsDataPayload]
  · intro method btc eth now hm
    simp [pureSimHandler, pureSimCore, withCors, hm, bodyIsDataPayload]
  · intro method cb hl now hm
    rcases hl with e | ⟨st, d⟩
    · simp [batchHandler, batchCore, withCors, hm, bodyIsDataPayload]
    · by_cases hok : statusOk st <;> rcases d with _ | data <;>
        simp [batchHandler, batchCore, withCors, hm, hok, bodyIsDataPayload]
  · intro method cb lb hl now hm
    rcases hl with e | ⟨st, d⟩
    · simp [leaderboardBatchHandler, batchCore, withCors, hm, bodyIsDataPayload]
    · by_cases hok : statusOk st <;> rcases d with _ | data <;>
        simp [leaderboardBatchHandler, batchCore, withCors, hm, hok, bodyIsDataPayload]
  · intro method u hm
    rcases u with msg | ⟨st, b⟩
    · simp [metaHandler, metaCore, withCors, hm, bodyIsDataPayload, FALLBACK_MOCK_RESPONSE]
    · rcases b with msg | resp
      · by_cases hok : statusOk st <;>
          simp [metaHandler, metaCore, withCors, hm, hok, bodyIsDataPayload,
                FALLBACK_MOCK_RESPONSE]
      · rcases hres : resp.result with _ | items <;>
          by_cases hok : statusOk st <;>
          simp [metaHandler, metaCore, withCors, hm, hok, hres, bodyIsDataPayload,
                FALLBACK_MOCK_RESPONSE]
  · intro method u hm
    rcases u with msg | ⟨st, b⟩
    · simp [allMidsHandler, allMidsCore, withCors, hm]
    · rcases b with msg | mids <;>
        by_cases hok : statusOk st <;>
        simp [allMidsHandler, allMidsCore, withCors, hm, hok, bodyIsDataPayload]

/-- C6, witness: the pure-simulation conjunct at a concrete GET request. -/
theorem c6_payload_on_200_witness :
    bodyIsDataPayload (pureSimHandler "GET" 60000 3500 0).body = true :=
  c6_payload_on_200.2.2.1 "GET" 60000 3500 0 (by decide) (by rfl)

/-! ## Claim C7 -/

/-- C7, confirmed: every variant short-circuits an OPTIONS request with
status 200, an empty body, its CORS headers, and zero upstream calls. -/
theorem c7_options_preflight :
    (∀ u : Except String Upstream1, snapshotMockHandler "OPTIONS" u =
      { status := 200, headers := corsGetOnly, body := .empty, upstreamCalls := 0 })
    ∧ (∀ (u : Except String Upstream2) (now : ℤ), snapshotSimHandler "OPTIONS" u now =
      { status := 200, headers := corsGetOnly, body := .empty, upstreamCalls := 0 })
    ∧ (∀ (btc eth : ℚ) (now : ℤ), pureSimHandler "OPTIONS" btc eth now =
      { status := 200, headers := corsGetOnly, body := .empty, upstreamCalls := 0 })
    ∧ (∀ (cb : Except Unit CoinbaseData) (hl : Except Unit HLBatchResp) (now : ℤ),
      batchHandler "OPTIONS" cb hl now =
      { status := 200, headers := corsPostGet, body := .empty, upstreamCalls := 0 })
    ∧ (∀ (cb : Except Unit CoinbaseData) (lb : Except Unit LBResp)
        (hl : Except Unit HLBatchResp) (now : ℤ),
      leaderboardBatchHandler "OPTIONS" cb lb hl now =
      { status := 200, headers := corsPostGet, body := .empty, upstreamCalls := 0 })
    ∧ (∀ u : Except String Upstream6, metaHandler "OPTIONS" u =
      { status := 200, headers := corsGetOnly, body := .empty, upstreamCalls := 0 })
    ∧ (∀ u : Except String Upstream7, allMidsHandler "OPTIONS" u =
      { status := 200, headers := corsGetPost, body := .empty, upstreamCalls := 0 }) :=
  ⟨fun _ => rfl, fun _ _ => rfl, fun _ _ _ => rfl, fun _ _ _ => rfl,
   fun _ _ _ _ => rfl, fun _ => rfl, fun _ => rfl⟩

/-! ## Claim C8 -/

/-- C8, confirmed: every response of every variant — any method, any
upstream behaviour, success and error paths alike — carries the CORS
headers: `Access-Control-Allow-Origin: *`, the variant's allowed-methods
header, and `Content-Type` among the allowed headers. -/
theorem c8_cors_headers :
    (∀ (method : String) (u : Except String Upstream1),
      ("Access-Control-Allow-Origin", "*") ∈ (snapshotMockHandler method u).headers ∧
      ("Access-Control-Allow-Methods", "GET, OPTIONS") ∈
        (snapshotMockHandler method u).headers ∧
      ("Access-Control-Allow-Headers", "Content-Type") ∈
        (snapshotMockHandler method u).headers)
    ∧ (∀ (method : String) (u : Except String Upstream2) (now : ℤ),
      ("Access-Control-Allow-Origin", "*") ∈ (snapshotSimHandler method u now).headers ∧
      ("Access-Control-Allow-Methods", "GET, OPTIONS") ∈
        (snapshotSimHandler method u now).headers ∧
      ("Access-Control-Allow-Headers", "Content-Type") ∈
        (snapshotSimHandler method u now).headers)
    ∧ (∀ (method : String) (btc eth : ℚ) (now : ℤ),
      ("Access-Control-Allow-Origin", "*") ∈ (pureSimHandler method btc eth now).headers ∧
      ("Access-Control-Allow-Methods", "GET, OPTIONS") ∈
        (pureSimHandler method btc eth now).headers ∧
      ("Access-Control-Allow-Headers", "Content-Type") ∈
        (pureSimHandler method btc eth now).headers)
    ∧ (∀ (method : String) (cb : Except Unit CoinbaseData) (hl : Except Unit HLBatchResp)
        (now : ℤ),
      ("Access-Control-Allow-Origin", "*") ∈ (batchHandler method cb hl now).headers ∧
      ("Access-Control-Allow-Methods", "POST, GET, OPTIONS") ∈
        (batchHandler method cb hl now).headers ∧
      ("Access-Control-Allow-Headers", "Content-Type") ∈
        (batchHandler method cb hl now).headers)
    ∧ (∀ (method : String) (cb : Except Unit CoinbaseData) (lb : Except Unit LBResp)
        (hl : Except Unit HLBatchResp) (now : ℤ),
      ("Access-Control-Allow-Origin", "*") ∈
        (leaderboardBatchHandler method cb lb hl now).headers ∧
      ("Access-Control-Allow-Methods", "POST, GET, OPTIONS") ∈
        (leaderboardBatchHandler method cb lb hl now).headers ∧
      ("Access-Control-Allow-Headers", "Content-Type") ∈
        (leaderboardBatchHandler method cb lb hl now).headers)
    ∧ (∀ (method : String) (u : Except String Upstream6),
      ("Access-Control-Allow-Origin", "*") ∈ (metaHandler method u).headers ∧
      ("Access-Control-Allow-Methods", "GET, OPTIONS") ∈ (metaHandler method u).headers ∧
      ("Access-Control-Allow-Headers", "Content-Type") ∈ (metaHandler method u).headers)
    ∧ (∀ (method : String) (u : Except String Upstream7),
      ("Access-Control-Allow-Origin", "*") ∈ (allMidsHandler method u).headers ∧
      ("Access-Control-Allow-Methods", "GET, POST, OPTIONS") ∈
        (allMidsHandler method u).headers ∧
      ("Access-Control-Allow-Headers", "Content-Type") ∈
        (allMidsHandler method u).headers) := by
  refine ⟨?_, ?_, ?_, ?_, ?_, ?_, ?_⟩ <;>
    intros <;>
    refine ⟨?_, ?_, ?_⟩ <;>
    simp [snapshotMockHandler, snapshotSimHandler, pureSimHandler, batchHandler,
          leaderboardBatchHandler, metaHandler, allMidsHandler, withCors,
          corsGetOnly, corsPostGet, corsGetPost]

/-! ## Claim C9 -/

/-- C9, confirmed: in the batch variants a position whose parsed signed size
is negative is excluded, whatever its magnitude, because the filter compares
the signed value: `mapHyperliquidPosition` drops it and a sub-response
holding only such a position contributes nothing to openPositions. -/
theorem c9_negative_size_excluded :
    ∀ (pos : HLPos) (btc eth : ℚ) (w : Option String) (q : ℚ),
      jsParseFloat pos.data.szi = some q → q < 0 →
      mapHyperliquidPosition pos btc eth w = none ∧
      ∀ wallets : List String,
        processBatchData wallets [⟨some ⟨some [pos]⟩⟩] btc eth = [] := by
  intro pos btc eth w q hq hneg
  have hnone : ∀ w2 : Option String, mapHyperliquidPosition pos btc eth w2 = none :=
    fun w2 => mapHyperliquidPosition_none_of_lt pos btc eth w2 q hq
      (lt_trans hneg (by norm_num))
  refine ⟨hnone w, ?_⟩
  intro wallets
  unfold processBatchData processBatchAux
  by_cases hz : pos.data.szi = "0" <;> simp [hz, hnone, processBatchAux]

/-- C9, witness: a position with size string "-5" (magnitude far above the
0.001 threshold) is excluded. -/
theorem c9_negative_size_excluded_witness :
    mapHyperliquidPosition ⟨⟨1, "long", "60000", "55000", "-5"⟩⟩ 60000 3500
      (some "0xa") = none ∧
    processBatchData ["0xa"]
      [⟨some ⟨some [⟨⟨1, "long", "60000", "55000", "-5"⟩⟩]⟩⟩] 60000 3500 = [] :=
  ⟨(c9_negative_size_excluded ⟨⟨1, "long", "60000", "55000", "-5"⟩⟩ 60000 3500
      (some "0xa") (-5)
      (by
        have h : jsParseRaw "-5" = some ⟨true, 5, 0, 0, 0⟩ := by decide
        simp [jsParseFloat, h, NumParts.val])
      (by norm_num)).1,
   (c9_negative_size_excluded ⟨⟨1, "long", "60000", "55000", "-5"⟩⟩ 60000 3500
      (some "0xa") (-5)
      (by
        have h : jsParseRaw "-5" = some ⟨true, 5, 0, 0, 0⟩ := by decide
        simp [jsParseFloat, h, NumParts.val])
      (by norm_num)).2 ["0xa"]⟩

/-! ## Claim C10 -/

/-- C10, confirmed: in the all_mids variant, a mock position whose mapped
coin is missing from the price map is still included in openPositions with
`CurrentPrice = 0`, and its PnL computed against price 0 is `-SizeUSD` for a
Long and `+SizeUSD` for a Short; moreover on every non-OPTIONS 200 path the
returned openPositions is exactly the mapped mock list. -/
theorem c10_missing_price_zero :
    (∀ (pm : String → Option ℚ) (pos : MockPosition) (c : String),
      pos ∈ MOCK_POSITIONS → ASSET_MAP pos.Asset = some c → pm c = none →
      (livePosition pm pos).CurrentPrice = 0 ∧
      (livePosition pm pos).UnrealizedPnL =
        (if pos.Side = "Long" then -pos.SizeUSD else pos.SizeUSD) ∧
      livePosition pm pos ∈ livePositions pm)
    ∧ (∀ (method : String) (mids : List MidItem), method ≠ "OPTIONS" →
      bodyPositions (allMidsHandler method (.ok ⟨200, .ok mids⟩)).body =
        livePositions (priceMapOf mids)) := by
  constructor
  · intro pm pos c hmem hmap hpm
    refine ⟨?_, ?_, List.mem_map_of_mem _ hmem⟩
    · simp [livePosition, hmap, hpm]
    · simp only [MOCK_POSITIONS, List.mem_cons, List.not_mem_nil, or_false] at hmem
      rcases hmem with rfl | rfl | rfl <;>
        · simp [ASSET_MAP] at hmap
          subst hmap
          simp [livePosition, calculatePnL, hpm, ASSET_MAP]
          norm_num
  · intro method mids hm
    simp [allMidsHandler, allMidsCore, withCors, statusOk, bodyPositions, hm]

/-- C10, witness: the BTC Long mock position under an empty price map. -/
theorem c10_missing_price_zero_witness :
    (livePosition (fun _ => none)
      { Asset := "BTC", Side := "Long", SizeUSD := 10000.00, EntryPrice := 62500.00,
        Margin := 500.00, LiquidationPrice := 59800.00 }).CurrentPrice = 0 ∧
    (livePosition (fun _ => none)
      { Asset := "BTC", Side := "Long", SizeUSD := 10000.00, EntryPrice := 62500.00,
        Margin := 500.00, LiquidationPrice := 59800.00 }).UnrealizedPnL =
      (if ({ Asset := "BTC", Side := "Long", SizeUSD := 10000.00, EntryPrice := 62500.00,
             Margin := 500.00, LiquidationPrice := 59800.00 } : MockPosition).Side = "Long"
       then -({ Asset := "BTC", Side := "Long", SizeUSD := 10000.00, EntryPrice := 62500.00,
                Margin := 500.00, LiquidationPrice := 59800.00 } : MockPosition).SizeUSD
       else ({ Asset := "BTC", Side := "Long", SizeUSD := 10000.00, EntryPrice := 62500.00,
               Margin := 500.00, LiquidationPrice := 59800.00 } : MockPosition).SizeUSD) ∧
    livePosition (fun _ => none)
      { Asset := "BTC", Side := "Long", SizeUSD := 10000.00, EntryPrice := 62500.00,
        Margin := 500.00, LiquidationPrice := 59800.00 } ∈
      livePositions (fun _ => none) :=
  c10_missing_price_zero.1 (fun _ => none)
    { Asset := "BTC", Side := "Long", SizeUSD := 10000.00, EntryPrice := 62500.00,
      Margin := 500.00, LiquidationPrice := 59800.00 } "ETH"
    (List.mem_cons_self _ _) rfl rfl

end Versus
